import Mathlib

/-!
Verification of the knowledge-base-web core against its specification.

We shallowly embed the JavaScript core of the repository:

* `src/utils/getField.js` — the tolerant field getter (`getField`);
* `src/services/context-assembly.js` — the context assembler
  (`assembleUnifiedContext` and its helpers);
* the SSE event service (`registerConnection`, `sendEvent`).

JavaScript objects and values are modelled by the inductive `JSValue`;
Airtable records by `ATRecord`; the external Airtable store by an abstract
`Store` (a function from table id and record id to a record or an error,
modelling `base(table).find(id)`); the platform primitive `JSON.parse`
(applied to the stringified argument) by an abstract `JSEnv`
(`none` models a parse exception).  Thrown JS exceptions are modelled by
`Except String` carrying the error message.
-/

/-- A JavaScript value, as stored in Airtable record fields and produced by
the assembler: `null`, `undefined`, booleans, strings, numbers (the code
only ever compares and measures integral values, so `Int` suffices),
arrays and plain objects (ordered key/value lists, keys unique). -/
inductive JSValue : Type where
  | null : JSValue
  | undefined : JSValue
  | bool : Bool → JSValue
  | str : String → JSValue
  | num : Int → JSValue
  | arr : List JSValue → JSValue
  | obj : List (String × JSValue) → JSValue

/-- JavaScript truthiness: `null`, `undefined`, `false`, `""` and `0` are
falsy; every array and object (even empty) is truthy. -/
def truthy : JSValue → Bool
  | .null => false
  | .undefined => false
  | .bool b => b
  | .str s => !(s.isEmpty)
  | .num n => !(n == 0)
  | .arr _ => true
  | .obj _ => true

/-- JavaScript `a || b`: `a` when truthy, else `b`. -/
def jsOr (a b : JSValue) : JSValue := if truthy a then a else b

/-- Loose equality `v == null`: true exactly for `null` and `undefined`. -/
def isNullish : JSValue → Bool
  | .null => true
  | .undefined => true
  | _ => false

/-- Whether a value is a JS array (`Array.isArray`). -/
def isArr : JSValue → Bool
  | .arr _ => true
  | _ => false

/-- First value stored under key `k` in an object's field list
(JS objects have unique keys; lookup finds the single binding). -/
def own (fs : List (String × JSValue)) (k : String) : Option JSValue :=
  (fs.find? (fun p => p.1 == k)).map (fun p => p.2)

/-- Array-element stringification inside JavaScript `String(array)`:
elements joined by `","`, with `null`/`undefined` elements becoming the
empty string. -/
def jsElemToString : JSValue → String
  | .null => ""
  | .undefined => ""
  | .bool true => "true"
  | .bool false => "false"
  | .str s => s
  | .num n => toString n
  | .arr xs => String.intercalate "," (xs.attach.map (fun x => jsElemToString x.1))
  | .obj _ => "[object Object]"
decreasing_by
  have := List.sizeOf_lt_of_mem x.2
  simp only [JSValue.arr.sizeOf_spec]
  omega

/-- JavaScript `String(v)` (template-literal interpolation and property-key
coercion).  Arrays stringify as their elements joined by `","`; plain
objects stringify as `"[object Object]"`. -/
def jsToString : JSValue → String
  | .null => "null"
  | .undefined => "undefined"
  | .bool true => "true"
  | .bool false => "false"
  | .str s => s
  | .num n => toString n
  | .arr xs => String.intercalate "," (xs.map jsElemToString)
  | .obj _ => "[object Object]"

/-! ## FieldResolver: `getField` (src/utils/getField.js) -/

/-- The alias loop of `getField`: for each name in the alias list (a JS
value, coerced to a property key), if the record has that key with a value
that is not `null`/`undefined` (`hasOwnProperty(fields, name) &&
fields[name] != null`), return it immediately. -/
def getFieldLoop (fs : List (String × JSValue)) : List JSValue → JSValue
  | [] => .undefined
  | n :: rest =>
    match own fs (jsToString n) with
    | some v => if isNullish v then getFieldLoop fs rest else v
    | none => getFieldLoop fs rest

/-- The function `getField(fields, aliasList)` from `src/utils/getField.js`.  `fields`
is a record object or absent (`none` models a `null`/`undefined`/falsy
`fields` argument, for which `!fields` short-circuits).  If `aliasList` is
falsy or not an array (`!aliasList || !Array.isArray(aliasList)`), the
result is `undefined`; arrays are always truthy in JS, so the guard
reduces to `aliasList` being an array. -/
def getField (fields : Option (List (String × JSValue))) (aliasList : JSValue) : JSValue :=
  match fields, aliasList with
  | some fs, .arr names => getFieldLoop fs names
  | _, _ => .undefined

/-! ## Airtable records and the external store -/

/-- An Airtable record: an id plus the `fields` object. -/
structure ATRecord : Type where
  id : String
  fields : List (String × JSValue)

/-- Field access `record.fields[name]`: the stored value, or `undefined` when the key
is absent. -/
def getF (r : ATRecord) (name : String) : JSValue :=
  (own r.fields name).getD .undefined

/-- The external Airtable base: `base(tableId).find(recordId)` either
resolves to a record or rejects with an error (modelled by its message).
Read-only; injected by the server. -/
structure Store : Type where
  find : String → JSValue → Except String ATRecord

/-- The platform `JSON.parse` primitive, applied to the (stringified)
argument: `none` models a thrown `SyntaxError`. -/
def JSEnv : Type := JSValue → Option JSValue

/-! Table ids from `src/services/context-assembly.js` (`TABLES`). -/

namespace TABLES

def INITIATOR : String := "tblBCiyCEEFJCJ1nO"

def WORKFLOWS : String := "tblwCDWd0pm7f3OK2"

def PROMPTS : String := "tblvgWQST4Z0P88np"

def ENTITIES : String := "tbl9q3pHR5qtALyzm"

def CONTENT_TYPES : String := "tbl1ywo3FVRw8skix"

def REFERENCES : String := "tblXfxCDOO4AGabsA"

def TOOLS : String := "tblO5ZEgmxJVI3FIR"

end TABLES

/-- JavaScript `v.length === 0`: only arrays and strings carry an intrinsic
numeric `length`; a plain object may carry its own `length` field; for
every other value `.length` is `undefined` and the strict comparison is
false. -/
def jsLenIsZero : JSValue → Bool
  | .arr xs => xs.isEmpty
  | .str s => s.isEmpty
  | .obj fs =>
    match own fs "length" with
    | some (.num n) => n == 0
    | _ => false
  | _ => false

/-- JavaScript `v.length > 0` (false when `.length` is not a number). -/
def jsLenPos : JSValue → Bool
  | .arr xs => !xs.isEmpty
  | .str s => !s.isEmpty
  | .obj fs =>
    match own fs "length" with
    | some (.num n) => 0 < n
    | _ => false
  | _ => false

/-- JavaScript `for (const x of v)` / spread: arrays iterate their
elements, strings iterate their characters; any other value throws a
`TypeError`. -/
def jsIterate : JSValue → Except String (List JSValue)
  | .arr xs => .ok xs
  | .str s => .ok (s.toList.map (fun c => .str (String.singleton c)))
  | _ => .error "TypeError: value is not iterable"

/-- The helper `parseJSON(jsonString)` from `src/services/context-assembly.js`:
falsy input yields `null`; a parse failure is caught and yields `null`. -/
def parseJSON (env : JSEnv) (jsonString : JSValue) : JSValue :=
  if truthy jsonString then
    match env jsonString with
    | some v => v
    | none => .null
  else .null

/-! ## ContextAssembler: fetch helpers (src/services/context-assembly.js) -/

/-- The helper `fetchInitiatorRecord`: fetches the primary record and, on failure,
logs and rethrows the same error. -/
def fetchInitiatorRecord (st : Store) (recordId : String) : Except String ATRecord :=
  st.find TABLES.INITIATOR (.str recordId)

/-- Shared shape of `fetchWorkflow`/`fetchEntity`/`fetchContentType`:
`if (!ids || ids.length === 0) return null`; take `ids[0]` when `ids` is
an array, otherwise `ids` itself; a fetch error is caught, logged as a
warning and degraded to `null`. -/
def fetchLinked (st : Store) (table : String) (ids : JSValue) : Option ATRecord :=
  if !truthy ids || jsLenIsZero ids then none
  else
    let linkedId : JSValue :=
      match ids with
      | .arr xs => xs.headD .undefined
      | v => v
    match st.find table linkedId with
    | .ok r => some r
    | .error _ => none

/-- The helper `fetchWorkflow(workflowIds)`. -/
def fetchWorkflow (st : Store) (workflowIds : JSValue) : Option ATRecord :=
  fetchLinked st TABLES.WORKFLOWS workflowIds

/-- The helper `fetchEntity(entityIds)`. -/
def fetchEntity (st : Store) (entityIds : JSValue) : Option ATRecord :=
  fetchLinked st TABLES.ENTITIES entityIds

/-- The helper `fetchContentType(contentTypeIds)`. -/
def fetchContentType (st : Store) (contentTypeIds : JSValue) : Option ATRecord :=
  fetchLinked st TABLES.CONTENT_TYPES contentTypeIds

/-- Shared shape of `fetchReferences`/`fetchTools`: empty or falsy id list
yields `[]`; otherwise iterate the ids (`for...of` — throws on a
non-iterable value), fetching each and silently skipping individual fetch
failures. -/
def fetchEach (st : Store) (table : String) (ids : JSValue) : Except String (List ATRecord) :=
  if !truthy ids || jsLenIsZero ids then .ok []
  else do
    let idList ← jsIterate ids
    pure (idList.filterMap (fun rid => (st.find table rid).toOption))

/-- The helper `fetchReferences(referenceIds)`. -/
def fetchReferences (st : Store) (referenceIds : JSValue) : Except String (List ATRecord) :=
  fetchEach st TABLES.REFERENCES referenceIds

/-- The helper `fetchTools(toolIds)`. -/
def fetchTools (st : Store) (toolIds : JSValue) : Except String (List ATRecord) :=
  fetchEach st TABLES.TOOLS toolIds

/-- The helper `fetchResearchCache(topic)`: falsy topic yields `[]`; the cache query
is a TODO in the source and currently always yields `[]` as well. -/
def fetchResearchCache (topic : JSValue) : List ATRecord :=
  if !truthy topic then [] else []

/-! ## LaneActivationPlanner: `extractActiveLanes` -/

/-- The fixed top-level lane alphabet (`lanes`). -/
def lanesList : List String := ["A", "B", "C", "D", "E", "F", "G", "H", "I", "J"]

/-- The five fixed sub-lane suffixes (`subLanes`). -/
def subLanes : List String := ["1.1", "2.1", "3.1", "4.1", "5.1"]

/-- The `branchToggles` object literal: branch toggle lookup fields on the
Initiator record (note branch B's `(full)` and branch H's double dash). -/
def branchToggles (initiator : ATRecord) (lane : String) : JSValue :=
  match lane with
  | "A" => getF initiator "WF - Branch A - on/off"
  | "B" => getF initiator "WF - Branch B (full) - on/off"
  | "C" => getF initiator "WF - Branch C - on/off"
  | "D" => getF initiator "WF - Branch D - on/off"
  | "E" => getF initiator "WF - Branch E - on/off"
  | "F" => getF initiator "WF - Branch F - on/off"
  | "G" => getF initiator "WF - Branch G - on/off"
  | "H" => getF initiator "WF - Branch H -- on/off"
  | "I" => getF initiator "WF - Branch I - on/off"
  | "J" => getF initiator "WF - Branch J - on/off"
  | _ => .undefined

/-- The prompt-linkage value consulted for one sub-lane key:
`initiator.fields['WF - ' + laneKey] || workflow.fields[laneKey]`. -/
def laneValueOf (initiator wf : ATRecord) (laneKey : String) : JSValue :=
  jsOr (getF initiator ("WF - " ++ laneKey)) (getF wf laneKey)

/-- The planner `extractActiveLanes(workflow, initiator)`: no workflow record means no
active lanes; otherwise, for each enabled branch in fixed order, push each
sub-lane key in fixed order whose consulted value satisfies
`laneValue && laneValue.length > 0`. -/
def extractActiveLanes (workflow : Option ATRecord) (initiator : ATRecord) : List String :=
  match workflow with
  | none => []
  | some wf =>
    lanesList.foldl
      (fun acc lane =>
        if truthy (branchToggles initiator lane) then
          subLanes.foldl
            (fun acc2 sub =>
              let laneKey := lane ++ sub
              let laneValue := laneValueOf initiator wf laneKey
              if truthy laneValue && jsLenPos laneValue then acc2 ++ [laneKey] else acc2)
            acc
        else acc)
      []

/-! ## ContextAssembler: section builders -/

/-- The builder `buildContentTypeContract(contentType)`: a missing content type yields
the null placeholder (whose `output_contract` holds only `fields`); a
present record fills `destination_table` (default `'Articles'`), parsed
field schema, validators and post-processing lists. -/
def buildContentTypeContract (env : JSEnv) (contentType : Option ATRecord) : JSValue :=
  match contentType with
  | none =>
    .obj [("id", .null), ("name", .str "Unknown"), ("schema_version", .str "1.0.0"),
      ("output_contract", .obj [("fields", .arr [])])]
  | some ct =>
    .obj [("id", .str ct.id),
      ("name", jsOr (getF ct "Name") (.str "Unknown")),
      ("schema_version", jsOr (getF ct "Schema Version") (.str "1.0.0")),
      ("output_contract", .obj [
        ("destination_table", jsOr (getF ct "Destination Table") (.str "Articles")),
        ("fields", jsOr (parseJSON env (getF ct "Fields Schema (JSON)")) (.arr [])),
        ("validators", jsOr (parseJSON env (getF ct "Validators (JSON)")) (.arr [])),
        ("post_processing", jsOr (parseJSON env (getF ct "Post Processing (JSON)")) (.arr []))])]

/-- The builder `buildEntityContext(entity, initiator)`: a missing entity yields the
null placeholder; otherwise the three knowledge bases are read from the
Initiator lookup fields and interpolated into one XML bundle string. -/
def buildEntityContext (env : JSEnv) (entity : Option ATRecord) (initiator : ATRecord) : JSValue :=
  match entity with
  | none =>
    .obj [("id", .null), ("name", .str "Unknown"), ("kb_xml_bundle", .str ""),
      ("app_context", .obj [])]
  | some e =>
    let brandKB := getF initiator "📚 Brand Knowledgebase (from entities table)"
    let audienceKB := getF initiator "📚 Audience Knowledgebase (from entities table)"
    let marketingKB := getF initiator "📚 Marketing Knowledgebase (from entities table)"
    let kbBundle :=
      "<kb xmlns:brand=\"urn:brand\" xmlns:audience=\"urn:audience\" xmlns:marketing=\"urn:marketing\">\n  "
        ++ jsToString (jsOr brandKB (.str "")) ++ "\n  "
        ++ jsToString (jsOr audienceKB (.str "")) ++ "\n  "
        ++ jsToString (jsOr marketingKB (.str "")) ++ "\n</kb>"
    .obj [("id", .str e.id),
      ("name", jsOr (getF e "Name") (.str "Unknown")),
      ("kb_xml_bundle", .str kbBundle),
      ("app_context", .obj [
        ("description", jsOr (getF e "Description") (.str "")),
        ("links", jsOr (parseJSON env (getF e "Links (JSON)")) (.arr [])),
        ("capabilities", jsOr (parseJSON env (getF e "Capabilities (JSON)")) (.arr []))])]

/-- The builder `buildAudienceContext(initiator)`. -/
def buildAudienceContext (initiator : ATRecord) : JSValue :=
  .obj [("kb_xml", jsOr (getF initiator "📚 Audience Knowledgebase (from entities table)") (.str "")),
    ("personas", jsOr (getF initiator "Personas") (.arr [])),
    ("priority", jsOr (getF initiator "Audience Priority") (.num 5))]

/-- The builder `buildResearchContext(researchCache, initiator)`; `cache_refs` entries
are the template strings `rc:${Date}:${Topic}:${Hash}`. -/
def buildResearchContext (env : JSEnv) (researchCache : List ATRecord) (initiator : ATRecord) : JSValue :=
  .obj [("sources", jsOr (getF initiator "Research Sources") (.arr [])),
    ("normalized", .arr (researchCache.map (fun r =>
      .obj [("id", .str r.id),
        ("type", jsOr (getF r "Type") (.str "unknown")),
        ("snippets", jsOr (parseJSON env (getF r "Snippets (JSON)")) (.arr []))]))),
    ("cache_refs", .arr (researchCache.map (fun r =>
      .str ("rc:" ++ jsToString (getF r "Date") ++ ":" ++ jsToString (getF r "Topic")
        ++ ":" ++ jsToString (getF r "Hash")))))]

/-- Regex replacement with the pattern of one-or-more whitespace, global: each maximal run of whitespace becomes one
underscore. -/
def replaceWsRuns (s : String) : String :=
  (s.toList.foldl
    (fun (acc : String × Bool) c =>
      if c.isWhitespace then (if acc.2 then acc else (acc.1.push '_', true))
      else (acc.1.push c, false))
    ("", false)).1

/-- The cred slug `tool.fields['Name']?.toLowerCase().replace(/\s+/g, '_')`
interpolated into a template: optional chaining turns a nullish `Name`
into the string `"undefined"`; a truthy non-string `Name` throws a
`TypeError` (`toLowerCase` is not a function). -/
def credSlug : JSValue → Except String String
  | .null => .ok "undefined"
  | .undefined => .ok "undefined"
  | .str s => .ok (replaceWsRuns s.toLower)
  | _ => .error "TypeError: tool.fields.Name.toLowerCase is not a function"

/-- The builder `buildToolsContext(tools)`. -/
def buildToolsContext (tools : List ATRecord) : Except String JSValue := do
  let items ← tools.mapM (fun tool => do
    let slug ← credSlug (getF tool "Name")
    pure (JSValue.obj [
      ("name", jsOr (getF tool "Name") (.str "Unknown")),
      ("cred", .str ("kb:cred-ref:" ++ slug ++ "_v1")),
      ("endpoint", jsOr (getF tool "API Endpoint") (.str ""))]))
  pure (.arr items)

/-- A property read `v.name` on a parsed JSON element: `null`/`undefined`
throw; objects look the key up; other primitives (whose own properties
never include the keys `name`/`value` read here) yield `undefined`. -/
def jsGetProp : JSValue → String → Except String JSValue
  | .null, k => .error ("TypeError: Cannot read properties of null (reading " ++ k ++ ")")
  | .undefined, k => .error ("TypeError: Cannot read properties of undefined (reading " ++ k ++ ")")
  | .obj fs, k => .ok ((own fs k).getD .undefined)
  | _, _ => .ok .undefined

/-- The helper `extractRules(workflow, contentType)`: concatenates mapped content-type
validators (`validators.map` throws on a truthy non-array parse result)
with the spread workflow rules (`rules.push(...workflowRules)` throws on a
truthy non-iterable parse result). -/
def extractRules (env : JSEnv) (workflow contentType : Option ATRecord) : Except String (List JSValue) := do
  let ctRules ←
    match contentType with
    | some ct =>
      if truthy (getF ct "Validators (JSON)") then
        let validators := parseJSON env (getF ct "Validators (JSON)")
        if truthy validators then
          match validators with
          | .arr vs =>
            vs.mapM (fun v => do
              let n ← jsGetProp v "name"
              let vl ← jsGetProp v "value"
              pure (JSValue.obj [("type", .str "validator"), ("name", n), ("value", vl)]))
          | _ => .error "TypeError: validators.map is not a function"
        else pure []
      else pure []
    | none => pure []
  let wfRules ←
    match workflow with
    | some wf =>
      if truthy (getF wf "Rules (JSON)") then
        let workflowRules := parseJSON env (getF wf "Rules (JSON)")
        if truthy workflowRules then jsIterate workflowRules
        else pure []
      else pure []
    | none => pure []
  pure (ctRules ++ wfRules)

/-! ## ContextAssembler: `assembleUnifiedContext` -/

/-- The UnifiedContext object literal of `assembleUnifiedContext`
(step 9), with all fetched and derived inputs supplied. -/
def composeUnifiedContext (env : JSEnv) (recordId now : String) (initiator : ATRecord)
    (entity contentType : Option ATRecord) (researchCache : List ATRecord)
    (activeLanes : List String) (toolsSection : JSValue) (rules : List JSValue) : JSValue :=
  .obj [
    ("initiator_id", .str recordId),
    ("timestamp", .str now),
    ("content_type", buildContentTypeContract env contentType),
    ("entity", buildEntityContext env entity initiator),
    ("audience", buildAudienceContext initiator),
    ("research", buildResearchContext env researchCache initiator),
    ("tools", toolsSection),
    ("platform", .obj [("provider", .str "openai"), ("model", .str "gpt-4")]),
    ("lane_plan", .arr (activeLanes.map (fun lane =>
      .obj [("lane", .str lane), ("enabled", .bool true)]))),
    ("prior_steps", .arr []),
    ("rules", .arr rules),
    ("context", .obj [
      ("user_input", .obj [
        ("goal", getF initiator "Whats Your Goal?"),
        ("brief", getF initiator "What are you imagining? (From Initiator Table)"),
        ("audience", getF initiator "Audience Name"),
        ("apps", jsOr (getF initiator "Apps") (.arr []))]),
      ("personalization", .obj [
        ("reading_level", jsOr (getF initiator "Reading Level") (.str "professional")),
        ("tone", jsOr (getF initiator "Tone") (.str "informative"))]),
      ("tags", jsOr (getF initiator "Tags") (.arr []))])]

/-- The body of the `try` block of `assembleUnifiedContext(recordId)`:
steps 1–9 in source order.  Only the primary fetch, the reference/tool id
iterations, the tools section and the rule extraction can throw; every
other step is total (its internal failures are caught and degraded). -/
def assembleInner (st : Store) (env : JSEnv) (now recordId : String) : Except String JSValue := do
  let initiator ← fetchInitiatorRecord st recordId
  let workflow := fetchWorkflow st (getF initiator "Premade AI Workflow (Initiator link to WF Table)")
  let entity := fetchEntity st
    (getF initiator "What Entity Are We Creating Content On Behalf of? (Initiator Table link to entities table)")
  let contentType := fetchContentType st (getF initiator "Content Type")
  let _references ← fetchReferences st (jsOr (getF initiator "References") (.arr []))
  let tools ← fetchTools st (jsOr (getF initiator "Tools") (.arr []))
  let goal := jsOr (getF initiator "Whats Your Goal?")
    (getF initiator "What are you imagining? (From Initiator Table)")
  let researchCache := fetchResearchCache goal
  let activeLanes := extractActiveLanes workflow initiator
  let toolsSection ← buildToolsContext tools
  let rules ← extractRules env workflow contentType
  pure (composeUnifiedContext env recordId now initiator entity contentType
    researchCache activeLanes toolsSection rules)

/-- The service entry `assembleUnifiedContext(recordId)`: the surrounding `try/catch` wraps
any thrown error into `Failed to assemble context: ${error.message}`. -/
def assembleUnifiedContext (st : Store) (env : JSEnv) (now recordId : String) : Except String JSValue :=
  match assembleInner st env now recordId with
  | .ok ctx => .ok ctx
  | .error e => .error ("Failed to assemble context: " ++ e)

/-- The keys of an object value, in construction order. -/
def objKeys : JSValue → List String
  | .obj fs => fs.map (fun p => p.1)
  | _ => []

/-- Reading a key of an object value (`undefined` when absent or when the
value is not an object). -/
def jsGet (v : JSValue) (k : String) : JSValue :=
  match v with
  | .obj fs => (own fs k).getD .undefined
  | _ => .undefined

/-! ## SSE event service (ConnectionRegistry + EventBus) -/

/-- JSON string escaping for `JSON.stringify`. -/
def jsonEscape (s : String) : String :=
  s.toList.foldl
    (fun acc c =>
      if c = '"' then acc ++ "\\\""
      else if c = '\\' then acc ++ "\\\\"
      else if c = '\n' then acc ++ "\\n"
      else if c = '\r' then acc ++ "\\r"
      else if c = '\t' then acc ++ "\\t"
      else acc.push c)
    ""

mutual

/-- Serialization `JSON.stringify` on the modelled values (`undefined` is dropped from
objects and serialized as `null` inside arrays). -/
def jsonStringify : JSValue → String
  | .null => "null"
  | .undefined => "null"
  | .bool true => "true"
  | .bool false => "false"
  | .num n => toString n
  | .str s => "\"" ++ jsonEscape s ++ "\""
  | .arr xs => "[" ++ String.intercalate "," (jsonElems xs) ++ "]"
  | .obj fs => "\x7b" ++ String.intercalate "," (jsonMembers fs) ++ "\x7d"

/-- Serialized array elements. -/
def jsonElems : List JSValue → List String
  | [] => []
  | x :: xs => jsonStringify x :: jsonElems xs

/-- Serialized object members, skipping `undefined` values. -/
def jsonMembers : List (String × JSValue) → List String
  | [] => []
  | (_, .undefined) :: rest => jsonMembers rest
  | (k, v) :: rest => ("\"" ++ jsonEscape k ++ "\":" ++ jsonStringify v) :: jsonMembers rest

end

/-- The SSE wire format of one event: `data: ${JSON.stringify(event)}\n\n`. -/
def sseMessage (event : JSValue) : String :=
  "data: " ++ jsonStringify event ++ "\n\n"

/-- The state of the SSE service: the module-level `connections` map from
record id to its array of sinks (sinks are identified by numbers; the map
preserves insertion order, as a JS `Map` does), together with the log of
successful writes `(sink, message)` in the order they happened. -/
structure SSEState : Type where
  connections : List (String × List Nat)
  writes : List (Nat × String)
deriving DecidableEq

/-- Lookup `connections.get(recordId)`: the subscriber array, or `none`. -/
def getClients (s : SSEState) (recordId : String) : Option (List Nat) :=
  (s.connections.find? (fun p => p.1 == recordId)).map (fun p => p.2)

/-- JavaScript `Map.prototype.set`: replace the value in place when the key exists,
else append a new entry. -/
def mapSet (m : List (String × List Nat)) (k : String) (v : List Nat) : List (String × List Nat) :=
  if m.any (fun p => p.1 == k) then
    m.map (fun p => if p.1 == k then (k, v) else p)
  else m ++ [(k, v)]

/-- JavaScript `Map.prototype.delete`. -/
def mapDelete (m : List (String × List Nat)) (k : String) : List (String × List Nat) :=
  m.filter (fun p => !(p.1 == k))

/-- The broadcaster `sendEvent(recordId, event)`: with no subscriber array or an empty one
the call logs and returns, leaving the state untouched; otherwise the
serialized message is written to every current subscriber in order, and a
throwing write (`fails` says which sinks throw) is caught and logged
without affecting the other writes or the registry. -/
def sendEvent (fails : Nat → Bool) (s : SSEState) (recordId : String) (event : JSValue) : SSEState :=
  match getClients s recordId with
  | none => s
  | some clients =>
    if clients.isEmpty then s
    else
      let message := sseMessage event
      { s with writes := s.writes ++ (clients.filter (fun c => !fails c)).map (fun c => (c, message)) }

/-- The synthetic event sent on registration:
`{type: 'connected', timestamp, message: 'Connected to event stream'}`. -/
def connectedEvent (now : String) : JSValue :=
  .obj [("type", .str "connected"), ("timestamp", .str now),
    ("message", .str "Connected to event stream")]

/-- The registration `registerConnection(recordId, res)`: create the subscriber array if
absent, push the sink, then call `sendEvent` with the synthetic
`connected` event (`now` stands for `new Date().toISOString()`). -/
def registerConnection (fails : Nat → Bool) (now : String) (s : SSEState)
    (recordId : String) (res : Nat) : SSEState :=
  let conns0 :=
    if s.connections.any (fun p => p.1 == recordId) then s.connections
    else mapSet s.connections recordId []
  let clients := ((conns0.find? (fun p => p.1 == recordId)).map (fun p => p.2)).getD []
  let pushed := mapSet conns0 recordId (clients ++ [res])
  sendEvent fails { s with connections := pushed } recordId (connectedEvent now)

/-- The `res.on('close', ...)` handler installed by `registerConnection`:
remove the sink from the subscriber array (first occurrence, via
`indexOf`/`splice`) and delete the map entry when the array is empty. -/
def closeSink (s : SSEState) (recordId : String) (res : Nat) : SSEState :=
  match getClients s recordId with
  | none => s
  | some clients =>
    let clients1 := clients.erase res
    if clients1.isEmpty then { s with connections := mapDelete s.connections recordId }
    else { s with connections := mapSet s.connections recordId clients1 }

/-! ## Theorems -/

/-- A name matches during `getField` resolution: the record has the key
with a value that is not `null`/`undefined`. -/
def nameMatches (fs : List (String × JSValue)) (n : JSValue) : Bool :=
  ((own fs (jsToString n)).map (fun v => !isNullish v)).getD false

lemma getFieldLoop_eq_find? (fs : List (String × JSValue)) (names : List JSValue) :
    getFieldLoop fs names =
      match names.find? (nameMatches fs) with
      | some n => (own fs (jsToString n)).getD .undefined
      | none => .undefined := by
  induction names with
  | nil => simp [getFieldLoop]
  | cons n rest ih =>
    unfold getFieldLoop
    rcases hv : own fs (jsToString n) with _ | v
    · have hm : nameMatches fs n = false := by simp [nameMatches, hv]
      simp [List.find?, hm, ih]
    · rcases hnull : isNullish v with _ | _
      · have hm : nameMatches fs n = true := by simp [nameMatches, hv, hnull]
        simp [List.find?, hm, hv, hnull]
      · have hm : nameMatches fs n = false := by simp [nameMatches, hv, hnull]
        simp [List.find?, hm, hv, hnull, ih]

/-- C2: `getField(R, L)` returns the value of the first name in `L`
present in `R` with a non-null/non-undefined value, and `undefined` when
no name matches, when `R` is absent, or when `L` is not a list; the
function is total, so no error is ever raised. -/
theorem getField_resolves_first_match :
    (∀ (fs : List (String × JSValue)) (names : List JSValue),
      getField (some fs) (.arr names) =
        match names.find? (nameMatches fs) with
        | some n => (own fs (jsToString n)).getD .undefined
        | none => .undefined)
    ∧ (∀ aliasList, getField none aliasList = .undefined)
    ∧ (∀ fs aliasList, isArr aliasList = false → getField (some fs) aliasList = .undefined) := by
  refine ⟨fun fs names => ?_, fun aliasList => ?_, fun fs aliasList h => ?_⟩
  · simpa [getField] using getFieldLoop_eq_find? fs names
  · rfl
  · cases aliasList <;> simp_all [getField, isArr]

/-- Witness for C2 at concrete inputs: a `null` first alias is skipped, a
matching second alias is returned; absent record and non-list alias
arguments yield `undefined`. -/
theorem getField_resolves_first_match_witness :
    getField (some [("b", JSValue.null), ("a", JSValue.num 7)])
        (.arr [.str "b", .str "a"]) = .num 7
    ∧ getField none (.arr [.str "a"]) = .undefined
    ∧ getField (some [("a", JSValue.num 7)]) (.str "x") = .undefined := by
  refine ⟨?_, getField_resolves_first_match.2.1 _,
    getField_resolves_first_match.2.2 [("a", JSValue.num 7)] (.str "x") rfl⟩
  exact (getField_resolves_first_match.1 [("b", JSValue.null), ("a", JSValue.num 7)]
    [.str "b", .str "a"]).trans rfl

/-- C5: an absent workflow record yields an empty lane activation list,
whatever branch toggles and prompt linkages the primary record carries. -/
theorem extractActiveLanes_no_workflow (initiator : ATRecord) :
    extractActiveLanes none initiator = [] := rfl

/-- C8: `sendEvent` for a correlation id with no subscriber list (or an
empty one) returns the state unchanged: no error, no writes, no registry
mutation — the event is dropped with no buffering. -/
theorem sendEvent_zero_subscribers (fails : Nat → Bool) (s : SSEState) (recordId : String)
    (event : JSValue)
    (h : getClients s recordId = none ∨ getClients s recordId = some []) :
    sendEvent fails s recordId event = s := by
  unfold sendEvent
  rcases h with h | h <;> simp [h]

/-- Witness for C8: an event for an unknown correlation id leaves a
concrete state untouched. -/
theorem sendEvent_zero_subscribers_witness :
    sendEvent (fun _ => false) ⟨[("r1", [1])], []⟩ "r2" (.str "e") = ⟨[("r1", [1])], []⟩ :=
  sendEvent_zero_subscribers (fun _ => false) ⟨[("r1", [1])], []⟩ "r2" (.str "e") (Or.inl rfl)

/-- C9: broadcasting never mutates the registry (in particular a write
failure removes no sink), and the write log gains exactly one entry per
current subscriber whose sink does not throw, in subscriber order — so a
failing sink aborts no other delivery. -/
theorem sendEvent_write_failure_isolated :
    (∀ (fails : Nat → Bool) (s : SSEState) (recordId : String) (event : JSValue),
      (sendEvent fails s recordId event).connections = s.connections)
    ∧ (∀ (fails : Nat → Bool) (s : SSEState) (recordId : String) (event : JSValue)
        (clients : List Nat), getClients s recordId = some clients →
        (sendEvent fails s recordId event).writes =
          s.writes ++ (clients.filter (fun c => !fails c)).map
            (fun c => (c, sseMessage event))) := by
  constructor
  · intro fails s recordId event
    unfold sendEvent
    rcases h : getClients s recordId with _ | clients
    · rfl
    · by_cases he : clients.isEmpty <;> simp [he]
  · intro fails s recordId event clients h
    unfold sendEvent
    rw [h]
    by_cases he : clients.isEmpty
    · rw [List.isEmpty_iff] at he
      simp [he]
    · simp [he]

/-- Witness for C9: with subscribers `[1, 2, 3]` and sink `2` throwing,
the registry entry survives and sinks `1` and `3` are both written to. -/
theorem sendEvent_write_failure_isolated_witness :
    (sendEvent (fun c => c == 2) ⟨[("r1", [1, 2, 3])], []⟩ "r1" (.str "e")).connections
        = [("r1", [1, 2, 3])]
    ∧ (sendEvent (fun c => c == 2) ⟨[("r1", [1, 2, 3])], []⟩ "r1" (.str "e")).writes
        = [(1, sseMessage (.str "e")), (3, sseMessage (.str "e"))] := by
  constructor
  · exact sendEvent_write_failure_isolated.1 (fun c => c == 2) ⟨[("r1", [1, 2, 3])], []⟩ "r1" (.str "e")
  · exact (sendEvent_write_failure_isolated.2 (fun c => c == 2) ⟨[("r1", [1, 2, 3])], []⟩ "r1"
      (.str "e") [1, 2, 3] rfl).trans rfl

lemma find?_mapSet_self (m : List (String × List Nat)) (k : String) (v : List Nat) :
    (mapSet m k v).find? (fun p => p.1 == k) = some (k, v) := by
  unfold mapSet
  by_cases h : m.any (fun p => p.1 == k) = true
  · simp only [if_pos h]
    rw [List.find?_map]
    have hpred : ((fun p : String × List Nat => p.1 == k)
        ∘ (fun p => if p.1 == k then (k, v) else p)) = fun p => p.1 == k := by
      funext p
      by_cases hp : (p.1 == k) = true <;> simp [Function.comp, hp]
    rw [hpred]
    rw [List.any_eq_true] at h
    obtain ⟨x, hx, hpx⟩ := h
    obtain ⟨y, hy⟩ := Option.isSome_iff_exists.mp
      ((@List.find?_isSome _ m (fun q : String × List Nat => q.1 == k)).mpr ⟨x, hx, hpx⟩)
    have hyk := List.find?_some (p := fun q : String × List Nat => q.1 == k) hy
    rw [hy]
    have hyk2 : (y.1 == k) = true := hyk
    simp [hyk2]
    intro hk
    exact absurd (eq_of_beq hyk2) hk
  · simp only [if_neg h]
    rw [List.find?_append]
    have hn : m.find? (fun p => p.1 == k) = none := by
      rw [List.find?_eq_none]
      intro x hx hpx
      exact h (List.any_eq_true.mpr ⟨x, hx, hpx⟩)
    rw [hn]
    simp

lemma find?_mapSet_other (m : List (String × List Nat)) (k : String) (v : List Nat)
    (k2 : String) (hne : k2 ≠ k) :
    (mapSet m k v).find? (fun p => p.1 == k2) = m.find? (fun p => p.1 == k2) := by
  unfold mapSet
  by_cases h : m.any (fun p => p.1 == k) = true
  · simp only [if_pos h]
    rw [List.find?_map]
    have hpred : ((fun p : String × List Nat => p.1 == k2)
        ∘ (fun p => if p.1 == k then (k, v) else p)) = fun p => p.1 == k2 := by
      funext p
      by_cases hp : (p.1 == k) = true
      · have hpk : p.1 = k := eq_of_beq hp
        simp [Function.comp, hp, hpk]
      · simp [Function.comp, hp]
    rw [hpred]
    rcases hy : m.find? (fun p => p.1 == k2) with _ | y
    · simp [hy]
    · have hk2 := List.find?_some (p := fun q : String × List Nat => q.1 == k2) hy
      simp only at hk2
      have hyk : (y.1 == k) = false := by
        rw [beq_eq_false_iff_ne]
        intro hk
        exact hne ((eq_of_beq hk2).symm.trans hk)
      simp [hy, hyk]
      intro hk
      exact absurd hk (beq_eq_false_iff_ne.mp hyk)
  · simp only [if_neg h]
    rw [List.find?_append]
    have hkk2 : (k == k2) = false := beq_eq_false_iff_ne.mpr (fun hkk => hne hkk.symm)
    rcases hy : m.find? (fun p => p.1 == k2) with _ | y <;> simp [hkk2]

lemma sendEvent_some_nonempty (fails : Nat → Bool) (s : SSEState) (recordId : String)
    (event : JSValue) (clients : List Nat) (h : getClients s recordId = some clients)
    (hne : clients.isEmpty = false) :
    sendEvent fails s recordId event =
      { s with writes := s.writes ++ ((clients.filter (fun c => !fails c)).map
          (fun c => (c, sseMessage event))) } := by
  unfold sendEvent
  rw [h]
  simp [hne]

lemma getClients_mapSet_self (conns : List (String × List Nat)) (ws : List (Nat × String))
    (k : String) (L : List Nat) :
    getClients ⟨mapSet conns k L, ws⟩ k = some L := by
  show ((mapSet conns k L).find? (fun p => p.1 == k)).map (fun p => p.2) = some L
  rw [find?_mapSet_self]
  rfl

lemma getClients_mapSet_other (conns : List (String × List Nat)) (ws : List (Nat × String))
    (k k2 : String) (L : List Nat) (hne : k2 ≠ k) :
    getClients ⟨mapSet conns k L, ws⟩ k2
      = (conns.find? (fun p => p.1 == k2)).map (fun p => p.2) := by
  show ((mapSet conns k L).find? (fun p => p.1 == k2)).map (fun p => p.2) = _
  rw [find?_mapSet_other _ _ _ _ hne]

lemma registerConnection_eq (fails : Nat → Bool) (now : String) (s : SSEState)
    (recordId : String) (res : Nat) :
    registerConnection fails now s recordId res =
      ⟨mapSet
          (if s.connections.any (fun p => p.1 == recordId) then s.connections
            else mapSet s.connections recordId [])
          recordId (((getClients s recordId).getD []) ++ [res]),
        s.writes ++ ((((getClients s recordId).getD []) ++ [res]).filter (fun c => !fails c)).map
          (fun c => (c, sseMessage (connectedEvent now)))⟩ := by
  by_cases h : s.connections.any (fun p => p.1 == recordId) = true
  · simp only [registerConnection, if_pos h]
    rw [sendEvent_some_nonempty fails _ recordId (connectedEvent now)
      ((((s.connections.find? (fun p => p.1 == recordId)).map (fun p => p.2)).getD []) ++ [res])
      (getClients_mapSet_self _ _ _ _) (by simp)]
    rfl
  · have hnone : getClients s recordId = none := by
      show (s.connections.find? (fun p => p.1 == recordId)).map (fun p => p.2) = none
      have : s.connections.find? (fun p => p.1 == recordId) = none := by
        rw [List.find?_eq_none]
        intro x hx hpx
        exact h (List.any_eq_true.mpr ⟨x, hx, hpx⟩)
      rw [this]
      rfl
    simp only [registerConnection, if_neg h]
    have hfind : ((mapSet s.connections recordId []).find? (fun p => p.1 == recordId)).map
        (fun p => p.2) = some [] := by
      rw [find?_mapSet_self]
      rfl
    rw [hfind]
    rw [sendEvent_some_nonempty fails _ recordId (connectedEvent now)
      (((some ([] : List Nat)).getD []) ++ [res]) (getClients_mapSet_self _ _ _ _) (by simp)]
    rw [hnone]
    rfl

/-- C7 (amended): `register(correlation_id, sink)` appends the sink to
that id's subscriber list (creating the list if absent) and leaves other
ids' lists untouched — but the synthetic `connected` event it then emits
goes through `sendEvent` to **every** current subscriber of that
correlation id (all non-throwing sinks, previously registered ones
included), not to the new sink only. -/
theorem registerConnection_appends_and_broadcasts (fails : Nat → Bool) (now : String)
    (s : SSEState) (recordId : String) (res : Nat) :
    getClients (registerConnection fails now s recordId res) recordId
        = some (((getClients s recordId).getD []) ++ [res])
    ∧ (∀ rid2, rid2 ≠ recordId →
        getClients (registerConnection fails now s recordId res) rid2 = getClients s rid2)
    ∧ (registerConnection fails now s recordId res).writes
        = s.writes ++ ((((getClients s recordId).getD []) ++ [res]).filter (fun c => !fails c)).map
            (fun c => (c, sseMessage (connectedEvent now))) := by
  rw [registerConnection_eq]
  refine ⟨getClients_mapSet_self _ _ _ _, fun rid2 hne => ?_, rfl⟩
  rw [getClients_mapSet_other _ _ _ _ _ hne]
  by_cases h : s.connections.any (fun p => p.1 == recordId) = true
  · rw [if_pos h]
    rfl
  · rw [if_neg h]
    show ((mapSet s.connections recordId []).find? (fun p => p.1 == rid2)).map (fun p => p.2) = _
    rw [find?_mapSet_other _ _ _ _ hne]
    rfl

/-- Witness for the amended C7: registering sink `6` for an id that
already has sink `5` yields list `[5, 6]`, leaves other ids absent, and
writes the `connected` message to both sinks. -/
theorem registerConnection_appends_and_broadcasts_witness :
    getClients (registerConnection (fun _ => false) "t9" ⟨[("r9", [5])], []⟩ "r9" 6) "r9"
        = some [5, 6]
    ∧ getClients (registerConnection (fun _ => false) "t9" ⟨[("r9", [5])], []⟩ "r9" 6) "other"
        = none
    ∧ (registerConnection (fun _ => false) "t9" ⟨[("r9", [5])], []⟩ "r9" 6).writes
        = [(5, sseMessage (connectedEvent "t9")), (6, sseMessage (connectedEvent "t9"))] := by
  have h := registerConnection_appends_and_broadcasts (fun _ => false) "t9" ⟨[("r9", [5])], []⟩ "r9" 6
  exact ⟨h.1.trans rfl, (h.2.1 "other" (by decide)).trans rfl, h.2.2.trans rfl⟩

/-- The registry after a first sink registers for `"r1"`. -/
def regSSE1 : SSEState := registerConnection (fun _ => false) "t1" ⟨[], []⟩ "r1" 1

/-- The registry after a second sink registers for the same `"r1"`. -/
def regSSE2 : SSEState := registerConnection (fun _ => false) "t2" regSSE1 "r1" 2

/-- C7 counterexample: after sink `1` is already registered for `"r1"`,
registering sink `2` writes the new `connected` event to sink `1` as
well — the claim that the synthetic `connected` event goes to the newly
registered sink only is false. -/
theorem registerConnection_connected_counterexample :
    getClients regSSE1 "r1" = some [1]
    ∧ (1, sseMessage (connectedEvent "t2")) ∈ regSSE2.writes := by
  constructor
  · rfl
  · exact List.Mem.tail _ (List.Mem.head _)

lemma foldl_push_filterMap (subs : List String) (pp : String → Bool) (f : String → String)
    (acc : List String) :
    subs.foldl (fun a2 sub => if pp sub then a2 ++ [f sub] else a2) acc
      = acc ++ subs.filterMap (fun sub => if pp sub then some (f sub) else none) := by
  induction subs generalizing acc with
  | nil => simp
  | cons x xs ih => by_cases hp : pp x = true <;> simp [hp, ih, List.filterMap_cons]

lemma foldl_groups (l : List String) (q : String → Bool) (pp : String → String → Bool)
    (acc : List String) :
    l.foldl
      (fun a lane =>
        if q lane then
          subLanes.foldl (fun a2 sub => if pp lane sub then a2 ++ [lane ++ sub] else a2) a
        else a)
      acc
    = acc ++ l.flatMap (fun lane =>
        if q lane then
          subLanes.filterMap (fun sub => if pp lane sub then some (lane ++ sub) else none)
        else []) := by
  induction l generalizing acc with
  | nil => simp
  | cons lane rest ih =>
    by_cases hq : q lane = true
    · simp only [List.foldl_cons, if_pos hq]
      rw [foldl_push_filterMap, ih]
      simp [hq]
    · simp only [List.foldl_cons, if_neg hq]
      rw [ih]
      simp [hq]

lemma extractActiveLanes_eq (initiator wf : ATRecord) :
    extractActiveLanes (some wf) initiator
      = lanesList.flatMap (fun lane =>
          if truthy (branchToggles initiator lane) then
            subLanes.filterMap (fun sub =>
              if truthy (laneValueOf initiator wf (lane ++ sub))
                  && jsLenPos (laneValueOf initiator wf (lane ++ sub)) then
                some (lane ++ sub)
              else none)
          else []) := by
  show lanesList.foldl
      (fun acc lane =>
        if truthy (branchToggles initiator lane) then
          subLanes.foldl
            (fun acc2 sub =>
              if truthy (laneValueOf initiator wf (lane ++ sub))
                  && jsLenPos (laneValueOf initiator wf (lane ++ sub)) then
                acc2 ++ [lane ++ sub]
              else acc2)
            acc
        else acc)
      [] = _
  rw [foldl_groups]
  simp

lemma laneKey_inj : ∀ l1 ∈ lanesList, ∀ s1 ∈ subLanes, ∀ l2 ∈ lanesList, ∀ s2 ∈ subLanes,
    l1 ++ s1 = l2 ++ s2 → l1 = l2 ∧ s1 = s2 := by decide

/-- The sub-lane activation condition actually implemented by
`extractActiveLanes`: the branch toggle is truthy and the value selected
by JavaScript `||` (the primary record's `WF - <key>` field when truthy,
otherwise the workflow record's `<key>` field) is truthy with positive
length. -/
def codeSubLaneActive (initiator wf : ATRecord) (lane sub : String) : Bool :=
  truthy (branchToggles initiator lane)
    && (truthy (laneValueOf initiator wf (lane ++ sub))
        && jsLenPos (laneValueOf initiator wf (lane ++ sub)))

/-- C4 (amended): with a workflow record present, a sub-lane key appears
in the lane plan iff its branch toggle is truthy and the single consulted
value — the primary record's field when truthy, else the workflow
record's — has positive length.  (A truthy but empty value on the primary
record therefore suppresses the workflow fallback.) -/
theorem extractActiveLanes_membership (initiator wf : ATRecord) (lane sub : String)
    (hl : lane ∈ lanesList) (hs : sub ∈ subLanes) :
    (lane ++ sub) ∈ extractActiveLanes (some wf) initiator
      ↔ codeSubLaneActive initiator wf lane sub = true := by
  rw [extractActiveLanes_eq]
  constructor
  · intro hmem
    rw [List.mem_flatMap] at hmem
    obtain ⟨lane2, hl2, hmem⟩ := hmem
    by_cases hq : truthy (branchToggles initiator lane2) = true
    case neg =>
      rw [if_neg hq] at hmem
      exact absurd hmem (List.not_mem_nil _)
    rw [if_pos hq] at hmem
    rw [List.mem_filterMap] at hmem
    obtain ⟨sub2, hs2, heq⟩ := hmem
    by_cases hp : (truthy (laneValueOf initiator wf (lane2 ++ sub2))
        && jsLenPos (laneValueOf initiator wf (lane2 ++ sub2))) = true
    case neg =>
      rw [if_neg hp] at heq
      exact absurd heq (Option.noConfusion)
    rw [if_pos hp] at heq
    have heqk : lane2 ++ sub2 = lane ++ sub := Option.some.inj heq
    obtain ⟨hll, hss⟩ := laneKey_inj lane2 hl2 sub2 hs2 lane hl sub hs heqk
    subst hll
    subst hss
    unfold codeSubLaneActive
    rw [hq, hp]
    rfl
  · intro hcode
    unfold codeSubLaneActive at hcode
    rw [Bool.and_eq_true] at hcode
    obtain ⟨hq, hp⟩ := hcode
    rw [List.mem_flatMap]
    refine ⟨lane, hl, ?_⟩
    rw [if_pos hq, List.mem_filterMap]
    exact ⟨sub, hs, by rw [if_pos hp]⟩

/-- Witness for the amended C4 at a concrete activated sub-lane. -/
theorem extractActiveLanes_membership_witness :
    "A1.1" ∈ extractActiveLanes
        (some ⟨"wf9", []⟩)
        ⟨"rec9", [("WF - Branch A - on/off", .bool true), ("WF - A1.1", .arr [.str "p"])]⟩
      ↔ codeSubLaneActive
          ⟨"rec9", [("WF - Branch A - on/off", .bool true), ("WF - A1.1", .arr [.str "p"])]⟩
          ⟨"wf9", []⟩ "A" "1.1" = true :=
  extractActiveLanes_membership
    ⟨"rec9", [("WF - Branch A - on/off", .bool true), ("WF - A1.1", .arr [.str "p"])]⟩
    ⟨"wf9", []⟩ "A" "1.1" (by decide) (by decide)

/-- A non-empty prompt linkage value in the sense of the specification:
truthy with positive length. -/
def nonEmptyVal (v : JSValue) : Bool := truthy v && jsLenPos v

/-- The sub-lane activation rule as the specification words it (the
spec-side definition for the refinement comparison): the branch toggle is
truthy and a non-empty prompt linkage exists for the sub-lane key on the
primary record or, failing that, on the workflow record. -/
def specSubLaneActive (initiator wf : ATRecord) (lane sub : String) : Bool :=
  truthy (branchToggles initiator lane)
    && (nonEmptyVal (getF initiator ("WF - " ++ lane ++ sub))
        || nonEmptyVal (getF wf (lane ++ sub)))

/-- Primary record for the C4 counterexample: branch A toggled on, and a
truthy but empty prompt-linkage array for `A1.1`. -/
def init4 : ATRecord :=
  ⟨"rec4", [("WF - Branch A - on/off", .bool true), ("WF - A1.1", .arr [])]⟩

/-- Workflow record for the C4 counterexample: a non-empty prompt linkage
for `A1.1`. -/
def wf4 : ATRecord := ⟨"wf4", [("A1.1", .arr [.str "recPrompt"])]⟩

/-- C4 counterexample: the toggle is truthy and a non-empty linkage exists
on the workflow record under `A1.1` (so the claimed rule activates the
sub-lane), yet the code activates nothing — the truthy empty array on the
primary record wins the `||` and fails the length check, suppressing the
workflow fallback. -/
theorem subLane_fallback_counterexample :
    specSubLaneActive init4 wf4 "A" "1.1" = true
    ∧ extractActiveLanes (some wf4) init4 = [] := ⟨rfl, rfl⟩

lemma ok_bind {α β : Type} (a : α) (f : α → Except String β) :
    (Except.ok a >>= f) = f a := rfl

lemma error_bind {α β : Type} (e : String) (f : α → Except String β) :
    ((Except.error e : Except String α) >>= f) = .error e := rfl

lemma assembleInner_ok_shape (st : Store) (env : JSEnv) (now recordId : String) (ctx : JSValue)
    (h : assembleInner st env now recordId = .ok ctx) :
    ∃ initiator toolsSection rules,
      fetchInitiatorRecord st recordId = .ok initiator
      ∧ ctx = composeUnifiedContext env recordId now initiator
          (fetchEntity st (getF initiator
            "What Entity Are We Creating Content On Behalf of? (Initiator Table link to entities table)"))
          (fetchContentType st (getF initiator "Content Type"))
          (fetchResearchCache (jsOr (getF initiator "Whats Your Goal?")
            (getF initiator "What are you imagining? (From Initiator Table)")))
          (extractActiveLanes
            (fetchWorkflow st (getF initiator "Premade AI Workflow (Initiator link to WF Table)"))
            initiator)
          toolsSection rules := by
  unfold assembleInner at h
  rcases h1 : fetchInitiatorRecord st recordId with e | initiator
  · rw [h1, error_bind] at h
    exact absurd h (by simp)
  rw [h1, ok_bind] at h
  simp only [] at h
  rcases h2 : fetchReferences st (jsOr (getF initiator "References") (.arr [])) with e | refs
  · rw [h2, error_bind] at h
    exact absurd h (by simp)
  rw [h2, ok_bind] at h
  rcases h3 : fetchTools st (jsOr (getF initiator "Tools") (.arr [])) with e | tools
  · rw [h3, error_bind] at h
    exact absurd h (by simp)
  rw [h3, ok_bind] at h
  rcases h4 : buildToolsContext tools with e | toolsSection
  · rw [h4, error_bind] at h
    exact absurd h (by simp)
  rw [h4, ok_bind] at h
  rcases h5 : extractRules env
      (fetchWorkflow st (getF initiator "Premade AI Workflow (Initiator link to WF Table)"))
      (fetchContentType st (getF initiator "Content Type")) with e | rules
  · rw [h5, error_bind] at h
    exact absurd h (by simp)
  rw [h5, ok_bind] at h
  exact ⟨initiator, toolsSection, rules, rfl, (Except.ok.inj h).symm⟩

/-- The twelve top-level keys of every assembled UnifiedContext. -/
def ucTopKeys : List String :=
  ["initiator_id", "timestamp", "content_type", "entity", "audience", "research",
    "tools", "platform", "lane_plan", "prior_steps", "rules", "context"]

lemma objKeys_compose (env : JSEnv) (recordId now : String) (initiator : ATRecord)
    (entity contentType : Option ATRecord) (researchCache : List ATRecord)
    (activeLanes : List String) (toolsSection : JSValue) (rules : List JSValue) :
    objKeys (composeUnifiedContext env recordId now initiator entity contentType
      researchCache activeLanes toolsSection rules) = ucTopKeys := rfl

lemma compose_lane_plan (env : JSEnv) (recordId now : String) (initiator : ATRecord)
    (entity contentType : Option ATRecord) (researchCache : List ATRecord)
    (activeLanes : List String) (toolsSection : JSValue) (rules : List JSValue) :
    jsGet (composeUnifiedContext env recordId now initiator entity contentType
        researchCache activeLanes toolsSection rules) "lane_plan"
      = .arr (activeLanes.map (fun lane =>
          .obj [("lane", .str lane), ("enabled", .bool true)])) := rfl

lemma compose_entity (env : JSEnv) (recordId now : String) (initiator : ATRecord)
    (entity contentType : Option ATRecord) (researchCache : List ATRecord)
    (activeLanes : List String) (toolsSection : JSValue) (rules : List JSValue) :
    jsGet (composeUnifiedContext env recordId now initiator entity contentType
        researchCache activeLanes toolsSection rules) "entity"
      = buildEntityContext env entity initiator := rfl

lemma compose_content_type (env : JSEnv) (recordId now : String) (initiator : ATRecord)
    (entity contentType : Option ATRecord) (researchCache : List ATRecord)
    (activeLanes : List String) (toolsSection : JSValue) (rules : List JSValue) :
    jsGet (composeUnifiedContext env recordId now initiator entity contentType
        researchCache activeLanes toolsSection rules) "content_type"
      = buildContentTypeContract env contentType := rfl

/-- A `JSON.parse` environment that always throws (no stored JSON parses);
used for concrete runs. -/
def envNone : JSEnv := fun _ => none

/-- C1 (amended): every successfully assembled UnifiedContext has exactly
the fixed twelve top-level keys — so no `meta` section (and hence no
`meta.idempotency_key`) exists in the output; the assembly takes a record
id only, no lane id. -/
theorem assembled_top_level_keys (st : Store) (env : JSEnv) (now recordId : String)
    (ctx : JSValue) (h : assembleUnifiedContext st env now recordId = .ok ctx) :
    objKeys ctx = ucTopKeys ∧ "meta" ∉ objKeys ctx ∧ "idempotency_key" ∉ objKeys ctx := by
  have hin : assembleInner st env now recordId = .ok ctx := by
    unfold assembleUnifiedContext at h
    rcases hx : assembleInner st env now recordId with e | c
    · rw [hx] at h
      exact absurd h (by simp)
    · rw [hx] at h
      exact h
  obtain ⟨initiator, toolsSection, rules, _, hctx⟩ :=
    assembleInner_ok_shape st env now recordId ctx hin
  subst hctx
  refine ⟨objKeys_compose _ _ _ _ _ _ _ _ _ _, ?_, ?_⟩
  · rw [objKeys_compose]
    decide
  · rw [objKeys_compose]
    decide

/-- A store whose primary table resolves an empty Initiator record and
whose other tables are unavailable. -/
def stC1 : Store :=
  ⟨fun table _ => if table == TABLES.INITIATOR then .ok ⟨"rec1", []⟩ else .error "unavailable"⟩

/-- C1 counterexample: a concrete successful assembly whose UnifiedContext
has exactly the twelve documented top-level keys — `meta` (and with it
`meta.idempotency_key`) is not among them, so no idempotency key is ever
set. -/
theorem idempotency_key_counterexample :
    (assembleUnifiedContext stC1 envNone "2025-01-01T00:00:00.000Z" "rec1").map objKeys
        = .ok ucTopKeys
    ∧ (assembleUnifiedContext stC1 envNone "2025-01-01T00:00:00.000Z" "rec1").map
        (fun ctx => (objKeys ctx).contains "meta") = .ok false
    ∧ (assembleUnifiedContext stC1 envNone "2025-01-01T00:00:00.000Z" "rec1").map
        (fun ctx => (objKeys ctx).contains "idempotency_key") = .ok false := ⟨rfl, rfl, rfl⟩

/-- The context assembled from `stC1` (for the C1 witness). -/
def ctxC1 : JSValue := (assembleUnifiedContext stC1 envNone "T" "rec1").toOption.getD .null

/-- Witness for the amended C1 at a concrete store. -/
theorem assembled_top_level_keys_witness :
    objKeys ctxC1 = ucTopKeys ∧ "meta" ∉ objKeys ctxC1 ∧ "idempotency_key" ∉ objKeys ctxC1 :=
  assembled_top_level_keys stC1 envNone "T" "rec1" ctxC1 rfl

/-- C10: in every successfully assembled UnifiedContext, `lane_plan` is
the image of the active-lane list under `lane ↦ {lane, enabled: true}` —
every entry carries `enabled: true`, and an `{lane, enabled: false}` entry
never occurs (inactive lanes are omitted entirely). -/
theorem lane_plan_entries_all_enabled (st : Store) (env : JSEnv) (now recordId : String)
    (ctx : JSValue) (h : assembleUnifiedContext st env now recordId = .ok ctx) :
    ∃ lanes : List String,
      jsGet ctx "lane_plan" = .arr (lanes.map (fun lane =>
        .obj [("lane", .str lane), ("enabled", .bool true)]))
      ∧ ∀ es, jsGet ctx "lane_plan" = .arr es → ∀ e ∈ es, jsGet e "enabled" = .bool true := by
  have hin : assembleInner st env now recordId = .ok ctx := by
    unfold assembleUnifiedContext at h
    rcases hx : assembleInner st env now recordId with e | c
    · rw [hx] at h
      exact absurd h (by simp)
    · rw [hx] at h
      exact h
  obtain ⟨initiator, toolsSection, rules, _, hctx⟩ :=
    assembleInner_ok_shape st env now recordId ctx hin
  subst hctx
  refine ⟨_, compose_lane_plan _ _ _ _ _ _ _ _ _ _, ?_⟩
  intro es hes e he
  rw [compose_lane_plan] at hes
  rw [← JSValue.arr.inj hes] at he
  obtain ⟨lane, _, rfl⟩ := List.mem_map.mp he
  rfl

/-- Initiator record for the C10 witness: workflow linked, branch A on,
prompt linkage for `A1.1`. -/
def initC10 : ATRecord :=
  ⟨"r10", [("Premade AI Workflow (Initiator link to WF Table)", .arr [.str "wf10"]),
    ("WF - Branch A - on/off", .bool true),
    ("WF - A1.1", .arr [.str "p"])]⟩

/-- Store for the C10 witness: Initiator and Workflows tables resolve,
everything else is unavailable. -/
def stC10 : Store :=
  ⟨fun table _ =>
    if table == TABLES.INITIATOR then .ok initC10
    else if table == TABLES.WORKFLOWS then .ok ⟨"wf10", []⟩
    else .error "unavailable"⟩

/-- The context assembled from `stC10` (for the C10 witness). -/
def ctxC10 : JSValue := (assembleUnifiedContext stC10 envNone "T" "r10").toOption.getD .null

/-- Witness for C10: a concrete assembly with a non-empty lane plan, every
entry of which is `{lane, enabled: true}`. -/
theorem lane_plan_entries_all_enabled_witness :
    ∃ lanes : List String,
      jsGet ctxC10 "lane_plan" = .arr (lanes.map (fun lane =>
        .obj [("lane", .str lane), ("enabled", .bool true)]))
      ∧ ∀ es, jsGet ctxC10 "lane_plan" = .arr es → ∀ e ∈ es, jsGet e "enabled" = .bool true :=
  lane_plan_entries_all_enabled stC10 envNone "T" "r10" ctxC10 rfl

/-- C6 (amended): a missing content-type record yields the fixed null
placeholder, whose `output_contract` holds only the empty `fields` list —
`destination_table` (and `validators`, `post_processing`) are omitted
rather than defaulted; the default destination name `'Articles'` applies
only when a content-type record is present without a truthy
`Destination Table` field. -/
theorem contentType_null_placeholder (env : JSEnv) :
    buildContentTypeContract env none =
      .obj [("id", .null), ("name", .str "Unknown"), ("schema_version", .str "1.0.0"),
        ("output_contract", .obj [("fields", .arr [])])]
    ∧ (∀ ct : ATRecord, truthy (getF ct "Destination Table") = false →
        jsGet (jsGet (buildContentTypeContract env (some ct)) "output_contract")
          "destination_table" = .str "Articles") := by
  refine ⟨rfl, fun ct h => ?_⟩
  show jsOr (getF ct "Destination Table") (.str "Articles") = .str "Articles"
  unfold jsOr
  rw [h]
  rfl

/-- Witness for the amended C6. -/
theorem contentType_null_placeholder_witness :
    buildContentTypeContract envNone none =
      .obj [("id", .null), ("name", .str "Unknown"), ("schema_version", .str "1.0.0"),
        ("output_contract", .obj [("fields", .arr [])])]
    ∧ jsGet (jsGet (buildContentTypeContract envNone (some ⟨"ct0", []⟩)) "output_contract")
        "destination_table" = .str "Articles" :=
  ⟨(contentType_null_placeholder envNone).1,
    (contentType_null_placeholder envNone).2 ⟨"ct0", []⟩ rfl⟩

/-- Initiator record for the C6 counterexample: a content-type link that
will fail to fetch. -/
def initC6 : ATRecord := ⟨"r6", [("Content Type", .arr [.str "ct1"])]⟩

/-- Store for the C6 counterexample: only the Initiator table resolves. -/
def stC6 : Store :=
  ⟨fun table _ => if table == TABLES.INITIATOR then .ok initC6 else .error "down"⟩

/-- C6 counterexample: in a concrete assembly whose content-type fetch
fails, the returned `content_type.output_contract` contains only the
`fields` key — the documented `destination_table` key (with its default
destination name) is omitted, contradicting the claim that no documented
key of the section is ever dropped. -/
theorem contentType_destination_omitted_counterexample :
    (assembleUnifiedContext stC6 envNone "T" "r6").map
        (fun ctx => objKeys (jsGet (jsGet ctx "content_type") "output_contract"))
      = .ok ["fields"]
    ∧ (assembleUnifiedContext stC6 envNone "T" "r6").map
        (fun ctx => (objKeys (jsGet (jsGet ctx "content_type") "output_contract")).contains
          "destination_table")
      = .ok false := ⟨rfl, rfl⟩

/-- C3: a primary-record fetch failure is fatal — the assembly rejects
with the wrapping `Failed to assemble context: <store error>` error —
whereas with the primary record fetched (and the remaining record-shaped
steps well-behaved: reference/tool id lists iterable, tool names
stringly, stored rule JSON mapping cleanly), the assembly succeeds no
matter which linked fetches fail, and each failed linked fetch degrades
exactly its own section: no workflow ⇒ empty `lane_plan`, no entity ⇒
the null entity placeholder, no content type ⇒ the null content-type
placeholder. -/
theorem assembly_fatal_vs_degraded :
    (∀ (st : Store) (env : JSEnv) (now recordId e : String),
      st.find TABLES.INITIATOR (.str recordId) = .error e →
      assembleUnifiedContext st env now recordId
        = .error ("Failed to assemble context: " ++ e))
    ∧ (∀ (st : Store) (env : JSEnv) (now recordId : String) (initiator : ATRecord)
        (refs tools : List ATRecord) (toolsSection : JSValue) (rules : List JSValue),
        st.find TABLES.INITIATOR (.str recordId) = .ok initiator →
        fetchReferences st (jsOr (getF initiator "References") (.arr [])) = .ok refs →
        fetchTools st (jsOr (getF initiator "Tools") (.arr [])) = .ok tools →
        buildToolsContext tools = .ok toolsSection →
        extractRules env
          (fetchWorkflow st (getF initiator "Premade AI Workflow (Initiator link to WF Table)"))
          (fetchContentType st (getF initiator "Content Type")) = .ok rules →
        ∃ ctx, assembleUnifiedContext st env now recordId = .ok ctx
          ∧ (fetchWorkflow st
                (getF initiator "Premade AI Workflow (Initiator link to WF Table)") = none →
              jsGet ctx "lane_plan" = .arr [])
          ∧ (fetchEntity st (getF initiator
                "What Entity Are We Creating Content On Behalf of? (Initiator Table link to entities table)")
                = none →
              jsGet ctx "entity" = .obj [("id", .null), ("name", .str "Unknown"),
                ("kb_xml_bundle", .str ""), ("app_context", .obj [])])
          ∧ (fetchContentType st (getF initiator "Content Type") = none →
              jsGet ctx "content_type" = .obj [("id", .null), ("name", .str "Unknown"),
                ("schema_version", .str "1.0.0"),
                ("output_contract", .obj [("fields", .arr [])])])) := by
  constructor
  · intro st env now recordId e h
    unfold assembleUnifiedContext assembleInner fetchInitiatorRecord
    rw [h, error_bind]
  · intro st env now recordId initiator refs tools toolsSection rules h1 h2 h3 h4 h5
    have hA : assembleInner st env now recordId
        = .ok (composeUnifiedContext env recordId now initiator
            (fetchEntity st (getF initiator
              "What Entity Are We Creating Content On Behalf of? (Initiator Table link to entities table)"))
            (fetchContentType st (getF initiator "Content Type"))
            (fetchResearchCache (jsOr (getF initiator "Whats Your Goal?")
              (getF initiator "What are you imagining? (From Initiator Table)")))
            (extractActiveLanes
              (fetchWorkflow st
                (getF initiator "Premade AI Workflow (Initiator link to WF Table)"))
              initiator)
            toolsSection rules) := by
      unfold assembleInner fetchInitiatorRecord
      rw [h1, ok_bind]
      simp only []
      rw [h2, ok_bind, h3, ok_bind, h4, ok_bind, h5, ok_bind]
      rfl
    refine ⟨composeUnifiedContext env recordId now initiator
        (fetchEntity st (getF initiator
          "What Entity Are We Creating Content On Behalf of? (Initiator Table link to entities table)"))
        (fetchContentType st (getF initiator "Content Type"))
        (fetchResearchCache (jsOr (getF initiator "Whats Your Goal?")
          (getF initiator "What are you imagining? (From Initiator Table)")))
        (extractActiveLanes
          (fetchWorkflow st
            (getF initiator "Premade AI Workflow (Initiator link to WF Table)"))
          initiator)
        toolsSection rules, ?_, ?_, ?_, ?_⟩
    · unfold assembleUnifiedContext
      rw [hA]
    · intro hw
      rw [compose_lane_plan, hw]
      rfl
    · intro he
      rw [compose_entity, he]
      rfl
    · intro hc
      rw [compose_content_type, hc]
      rfl

/-- A store that is entirely down. -/
def stErr : Store := ⟨fun _ _ => .error "boom"⟩

/-- Initiator record for the C3 witness: workflow, entity and content-type
links are all present (so all three linked fetches are attempted — and
fail). -/
def initDeg : ATRecord :=
  ⟨"rd", [("Premade AI Workflow (Initiator link to WF Table)", .arr [.str "w1"]),
    ("What Entity Are We Creating Content On Behalf of? (Initiator Table link to entities table)",
      .arr [.str "e1"]),
    ("Content Type", .arr [.str "c1"])]⟩

/-- Store for the C3 witness: the primary fetch succeeds, every linked
fetch fails. -/
def stDeg : Store :=
  ⟨fun table _ => if table == TABLES.INITIATOR then .ok initDeg else .error "down"⟩

/-- Witness for C3: a concrete fatal primary failure, and a concrete
assembly in which all three linked fetches fail yet the call succeeds
with all three sections degraded. -/
theorem assembly_fatal_vs_degraded_witness :
    assembleUnifiedContext stErr envNone "T" "rX" = .error "Failed to assemble context: boom"
    ∧ (∃ ctx, assembleUnifiedContext stDeg envNone "T" "rd" = .ok ctx
        ∧ jsGet ctx "lane_plan" = .arr []
        ∧ jsGet ctx "entity" = .obj [("id", .null), ("name", .str "Unknown"),
            ("kb_xml_bundle", .str ""), ("app_context", .obj [])]
        ∧ jsGet ctx "content_type" = .obj [("id", .null), ("name", .str "Unknown"),
            ("schema_version", .str "1.0.0"),
            ("output_contract", .obj [("fields", .arr [])])]) := by
  constructor
  · exact assembly_fatal_vs_degraded.1 stErr envNone "T" "rX" "boom" rfl
  · obtain ⟨ctx, hok, hl, he, hc⟩ := assembly_fatal_vs_degraded.2 stDeg envNone "T" "rd"
      initDeg [] [] (.arr []) [] rfl rfl rfl rfl rfl
    exact ⟨ctx, hok, hl rfl, he rfl, hc rfl⟩
